import Mathlib

/-
  Verification development for the SQLite-file decoder in this repository.

  The definitions below are a shallow embedding of the Rust sources:
    src/varint.rs           (Varint, read, value_of, len, size_of)
    src/database/record.rs  (RecordHeader, read_header, read_value,
                             read_raw_column, read)
    src/database/btree.rs   (BTreePageType, page headers, cell pointer
                             arrays, leaf-table cells, read_page)
    src/database.rs         (DatabaseHeader, read_header)

  Modelling conventions:
  - A byte is a Nat in [0, 256); byte sources (values implementing io::Read
    over an in-memory slice) are List Nat, and reading returns the decoded
    value together with the remaining bytes.  std's read_exact on a slice
    checks the length up front and consumes nothing on failure, which the
    embedding mirrors.
  - Machine-integer arithmetic (u64) is Nat with an explicit mod 2 ^ 64
    where wrapping could occur.
  - Fallible calls return the DRes outcome type below.  The constructor
    DRes.panicked models a Rust panic (a todo macro, an arithmetic
    underflow on usize, or an out-of-bounds slice index), which is an
    abnormal termination distinct from returning an io::Error.
  - DRes.noFuel is produced only by the fuelled loop of record.read; the
    source loop has no bound, and noFuel corresponds to the source looping
    beyond the fuel given (which for the inputs considered here never
    happens: the fuel chosen dominates the source's iteration count
    whenever the source terminates at all).
-/

/-- Error kinds produced by the decoder, mirroring the io::Error values the
source constructs: UnexpectedEof from read_exact and the InvalidData error
wrapping BTreePageTypeError (src/database/btree.rs lines 30 to 42). -/
inductive DecodeError where
  | unexpectedEof : DecodeError
  | unknownPageType : Nat → DecodeError
deriving Repr, DecidableEq

/-- Outcome of running a decode step: a value, a typed io::Error, a Rust
panic, or exhaustion of the fuel bounding the one unbounded source loop. -/
inductive DRes (α : Type) where
  | ok : α → DRes α
  | err : DecodeError → DRes α
  | panicked : DRes α
  | noFuel : DRes α
deriving Repr, DecidableEq

/-- Varint from src/varint.rs lines 3 to 7: a first byte and a tail. -/
structure Varint where
  a0 : Nat
  tail : List Nat
deriving Repr, DecidableEq

namespace varint

/-- high_bit_is_set from src/varint.rs lines 45 to 47. -/
def high_bit_is_set (val : Nat) : Bool := val &&& 128 != 0

/-- The tail-collection loop of read (src/varint.rs lines 51 to 64): while
the previous byte has its high bit set, read one more byte; a failed read
(source exhausted) silently ends the loop via ok()?. Returns the collected
tail and the remaining bytes. -/
def read_tail (prev : Nat) : List Nat → List Nat × List Nat
  | [] => ([], [])
  | b :: rest =>
    if high_bit_is_set prev then
      (b :: (read_tail b rest).1, (read_tail b rest).2)
    else ([], b :: rest)

/-- read from src/varint.rs lines 48 to 67: read the first byte (failing
with UnexpectedEof only if the source is already empty), then collect the
tail with read_tail. -/
def read (bs : List Nat) : DRes (Varint × List Nat) :=
  match bs with
  | [] => .err .unexpectedEof
  | a0 :: rest => .ok (⟨a0, (read_tail a0 rest).1⟩, (read_tail a0 rest).2)

/-- len from src/varint.rs lines 42 to 44. -/
def len (v : Varint) : Nat := v.tail.length + 1

/-- The body of the fold in value_of (src/varint.rs lines 70 to 78),
with the enumeration index made explicit. u64 shifts are taken mod 2 ^ 64
(for the byte counts arising from well-formed varints, at most 9, the mod
changes nothing). -/
def value_of_go (count : Nat) : Nat → Nat → List Nat → Nat
  | _, acc, [] => acc
  | idx, acc, b :: rest =>
    let elt := if idx < count - 1 then b ^^^ 128 else b
    let elt := (elt <<< (7 * (count - idx - 1))) % 2 ^ 64
    value_of_go count (idx + 1) (elt ||| acc) rest

/-- value_of from src/varint.rs lines 68 to 79. -/
def value_of (v : Varint) : Nat :=
  value_of_go (len v) 0 0 (v.a0 :: v.tail)

/-- size_of from src/varint.rs lines 80 to 82: size_of_val of the u8 head
(one byte) plus the tail length. -/
def size_of (v : Varint) : Nat := 1 + v.tail.length

end varint

/-- Follows the words of the specification, section 4.1 and the Varint row
of section 3: the value concatenates, most significant first, the low 7
bits of each of the first up-to-8 bytes and, when a 9th byte is present,
all 8 bits of that 9th byte.  Stated separately from varint.value_of so the
two can be compared. -/
def spec_value_of (v : Varint) : Nat :=
  let bytes := v.a0 :: v.tail
  if bytes.length ≤ 8 then
    bytes.foldl (fun acc b => acc * 128 + b % 128) 0
  else
    (bytes.take 8).foldl (fun acc b => acc * 128 + b % 128) 0 * 256 + bytes.getD 8 0

/-- RecordHeader from src/database/record.rs lines 7 to 11. -/
structure RecordHeader where
  size : Varint
  serial_types : List Varint
deriving Repr, DecidableEq

/-- RecordValue from src/database/record.rs lines 64 to 69: the only
variants the source defines. -/
inductive RecordValue where
  | Null : RecordValue
  | TwosComplement8 : Nat → RecordValue
  | EncodedString : List Nat → RecordValue
deriving Repr, DecidableEq

namespace record

/-- is_string_serial_type from src/database/record.rs lines 41 to 44. -/
def is_string_serial_type (serial_type_value : Nat) : Bool :=
  decide (13 ≤ serial_type_value) && !decide (serial_type_value % 2 = 0)

/-- string_serial_type_size from src/database/record.rs lines 45 to 47. -/
def string_serial_type_size (serial_type_value : Nat) : Nat :=
  (serial_type_value - 13) / 2

/-- The serial-type collection loop in read_header (src/database/record.rs
line 25), recursing on fuel: repeatedly run varint::read on the header tail
until it is exhausted (on a nonempty slice varint::read always succeeds).
Every iteration consumes at least the leading byte, so fuel equal to the
slice length makes the fuel pattern exhaustive: the zero-fuel branch is
reached only on the empty slice, where the source loop also stops. -/
def read_serial_types_fuel : Nat → List Nat → List Varint
  | 0, _ => []
  | _, [] => []
  | fuel + 1, b :: rest =>
    ⟨b, (varint.read_tail b rest).1⟩ ::
      read_serial_types_fuel fuel (varint.read_tail b rest).2

/-- The serial-type collection loop of read_header, at its adequate fuel. -/
def read_serial_types (bs : List Nat) : List Varint :=
  read_serial_types_fuel bs.length bs

/-- read_header from src/database/record.rs lines 15 to 27.  The panicked
branch models the usize subtraction in header_tail_size (lines 12 to 14),
which underflows whenever the size varint's value is smaller than its own
encoded size. -/
def read_header (bs : List Nat) : DRes (RecordHeader × List Nat) :=
  match varint.read bs with
  | .ok (size, rest) =>
    if varint.value_of size < varint.size_of size then .panicked
    else
      let n := varint.value_of size - varint.size_of size
      if rest.length < n then .err .unexpectedEof
      else .ok (⟨size, read_serial_types (rest.take n)⟩, rest.drop n)
  | .err e => .err e
  | .panicked => .panicked
  | .noFuel => .noFuel

/-- read_value from src/database/record.rs lines 88 to 99: serial type 0
is Null, 1 is a one-byte integer, odd types at least 13 are strings of
(value - 13) / 2 raw bytes; every other serial type hits the todo macro
and panics. -/
def read_value (bs : List Nat) (serial_type : Varint) : DRes (RecordValue × List Nat) :=
  let v := varint.value_of serial_type
  if v = 0 then .ok (.Null, bs)
  else if v = 1 then
    match bs with
    | [] => .err .unexpectedEof
    | b :: rest => .ok (.TwosComplement8 b, rest)
  else if is_string_serial_type v then
    if bs.length < string_serial_type_size v then .err .unexpectedEof
    else .ok (.EncodedString (bs.take (string_serial_type_size v)),
              bs.drop (string_serial_type_size v))
  else .panicked

/-- read_raw_column from src/database/record.rs lines 105 to 115: map_while
over the serial types, stopping silently at the first read_value failure
(a panic, not being a Result, still propagates).  Returns the collected
prefix of values and the remaining bytes. -/
def read_raw_column : List Varint → List Nat → DRes (List RecordValue × List Nat)
  | [], bs => .ok ([], bs)
  | st :: sts, bs =>
    match read_value bs st with
    | .ok (v, rest) =>
      match read_raw_column sts rest with
      | .ok (vs, r2) => .ok (v :: vs, r2)
      | .err e => .err e
      | .panicked => .panicked
      | .noFuel => .noFuel
    | .err _ => .ok ([], bs)
    | .panicked => .panicked
    | .noFuel => .noFuel

/-- The column loop of read (src/database/record.rs lines 138 to 147):
repeatedly decode a whole column batch from the remaining data with the
same serial-type list, stopping when a batch comes back empty.  The source
loop is unbounded (it does not terminate when every serial type has zero
width and the batch is nonempty), so the embedding carries fuel; noFuel
marks the runs on which the source would not have stopped within it. -/
def read_columns_loop (sts : List Varint) : Nat → List Nat → DRes (List (List RecordValue))
  | 0, _ => .noFuel
  | fuel + 1, bs =>
    match read_raw_column sts bs with
    | .ok (cells, rest) =>
      if cells.isEmpty then .ok []
      else
        match read_columns_loop sts fuel rest with
        | .ok cols => .ok (cells :: cols)
        | .err e => .err e
        | .panicked => .panicked
        | .noFuel => .noFuel
    | .err e => .err e
    | .panicked => .panicked
    | .noFuel => .noFuel

/-- read from src/database/record.rs lines 135 to 149 (instantiated, as in
the schema path, with the identity FromRawColumn of RawColumn): read the
header, take the whole remaining input as data (read_to_end), then collect
column batches.  Fuel one more than the data length covers every run in
which each nonempty batch consumes at least one byte. -/
def read (bs : List Nat) : DRes (RecordHeader × List (List RecordValue)) :=
  match read_header bs with
  | .ok (header, data) =>
    match read_columns_loop header.serial_types (data.length + 1) data with
    | .ok cols => .ok (header, cols)
    | .err e => .err e
    | .panicked => .panicked
    | .noFuel => .noFuel
  | .err e => .err e
  | .panicked => .panicked
  | .noFuel => .noFuel

end record

/-- BTreePageType from src/database/btree.rs lines 10 to 17. -/
inductive BTreePageType where
  | InteriorIndex : BTreePageType
  | InteriorTable : BTreePageType
  | LeafIndex : BTreePageType
  | LeafTable : BTreePageType
deriving Repr, DecidableEq

namespace btree

/-- TryFrom for BTreePageType (src/database/btree.rs lines 18 to 29), with
the BTreePageTypeError already lifted to the io::Error it becomes via the
From impl at lines 38 to 42. -/
def page_type_try_from (value : Nat) : DRes BTreePageType :=
  if value = 2 then .ok .InteriorIndex
  else if value = 5 then .ok .InteriorTable
  else if value = 10 then .ok .LeafIndex
  else if value = 13 then .ok .LeafTable
  else .err (.unknownPageType value)

/-- BTreePageHeaderInner from src/database/btree.rs lines 43 to 60: a
packed struct of one type byte, three big-endian u16 fields and one byte. -/
structure BTreePageHeaderInner where
  type : BTreePageType
  first_freeblock_start : Nat
  cell_count : Nat
  content_area_start : Nat
  free_bytes_in_content_area : Nat
deriving Repr, DecidableEq

/-- read_page_header_inner from src/database/btree.rs lines 81 to 102:
read 8 bytes (the size of the packed struct), reinterpret them with the
u16 fields big-endian, and validate the type tag. -/
def read_page_header_inner : List Nat → DRes (BTreePageHeaderInner × List Nat)
  | t :: f1 :: f2 :: c1 :: c2 :: s1 :: s2 :: fb :: rest =>
    match page_type_try_from t with
    | .ok ty => .ok (⟨ty, f1 * 256 + f2, c1 * 256 + c2, s1 * 256 + s2, fb⟩, rest)
    | .err e => .err e
    | .panicked => .panicked
    | .noFuel => .noFuel
  | _ => .err .unexpectedEof

/-- BTreePageHeader from src/database/btree.rs lines 103 to 107. -/
structure BTreePageHeader where
  inner : BTreePageHeaderInner
  right_most_pointer : Option Nat
deriving Repr, DecidableEq

/-- read_page_header from src/database/btree.rs lines 108 to 123: after
the inner header, interior pages carry a 4-byte big-endian right-most
child pointer; leaf pages carry none. -/
def read_page_header (bs : List Nat) : DRes (BTreePageHeader × List Nat) :=
  match read_page_header_inner bs with
  | .ok (inner, rest) =>
    if inner.type = .InteriorIndex ∨ inner.type = .InteriorTable then
      match rest with
      | p1 :: p2 :: p3 :: p4 :: r2 =>
        .ok (⟨inner, some (((p1 * 256 + p2) * 256 + p3) * 256 + p4)⟩, r2)
      | _ => .err .unexpectedEof
    else .ok (⟨inner, none⟩, rest)
  | .err e => .err e
  | .panicked => .panicked
  | .noFuel => .noFuel

/-- size_of_page_header from src/database/btree.rs lines 124 to 135: the
8-byte packed inner struct plus 4 bytes when the right-most pointer is
present. -/
def size_of_page_header (h : BTreePageHeader) : Nat :=
  8 + (if h.right_most_pointer.isSome then 4 else 0)

/-- The chunks_exact(2) big-endian u16 conversion inside
read_cell_pointer_array (src/database/btree.rs lines 147 to 157). -/
def be_u16_pairs : List Nat → List Nat
  | hi :: lo :: rest => (hi * 256 + lo) :: be_u16_pairs rest
  | _ => []

/-- read_cell_pointer_array from src/database/btree.rs lines 141 to 159:
read exactly 2 * cell_count bytes and convert them to big-endian u16 cell
pointers. -/
def read_cell_pointer_array (bs : List Nat) (cell_count : Nat) : DRes (List Nat × List Nat) :=
  if bs.length < 2 * cell_count then .err .unexpectedEof
  else .ok (be_u16_pairs (bs.take (2 * cell_count)), bs.drop (2 * cell_count))

/-- BTreeLeafTableCell from src/database/btree.rs lines 252 to 268. -/
structure BTreeLeafTableCell where
  total_payload_bytes : Varint
  rowid : Varint
  initial_payload : List Nat
  first_overflow_page_number : Option Nat
deriving Repr, DecidableEq

/-- BTreeCell from src/database/btree.rs lines 284 to 287: the source
defines only the leaf-table variant. -/
inductive BTreeCell where
  | LeafTable : BTreeLeafTableCell → BTreeCell
deriving Repr, DecidableEq

/-- read_leaf_table_cell from src/database/btree.rs lines 269 to 283: two
varints (payload length and rowid), then exactly value_of total bytes of
payload; the overflow page number field is always set to none. -/
def read_leaf_table_cell (bs : List Nat) : DRes (BTreeLeafTableCell × List Nat) :=
  match varint.read bs with
  | .ok (total, r1) =>
    match varint.read r1 with
    | .ok (rid, r2) =>
      let n := varint.value_of total
      if r2.length < n then .err .unexpectedEof
      else .ok (⟨total, rid, r2.take n, none⟩, r2.drop n)
    | .err e => .err e
    | .panicked => .panicked
    | .noFuel => .noFuel
  | .err e => .err e
  | .panicked => .panicked
  | .noFuel => .noFuel

/-- read_cell from src/database/btree.rs lines 304 to 309: only leaf-table
pages are handled; any other page type hits the todo macro and panics. -/
def read_cell (bs : List Nat) (ty : BTreePageType) : DRes (BTreeCell × List Nat) :=
  match ty with
  | .LeafTable =>
    match read_leaf_table_cell bs with
    | .ok (c, r) => .ok (.LeafTable c, r)
    | .err e => .err e
    | .panicked => .panicked
    | .noFuel => .noFuel
  | _ => .panicked

/-- The per-pointer loop of parse_page_bytes (src/database/btree.rs lines
221 to 228): for each cell pointer, subtract the computed content offset
(usize subtraction: underflow is a panic in debug and a wrapped, wildly
out-of-range index in release) and index into the content slice (a start
past the end is a panic); read_cell errors are silently skipped by the
filter_map, but its panics propagate. -/
def parse_cells (content : List Nat) (content_offset : Nat) (ty : BTreePageType) :
    List Nat → DRes (List BTreeCell)
  | [] => .ok []
  | off :: offs =>
    if off < content_offset then .panicked
    else if content.length < off - content_offset then .panicked
    else
      match read_cell (content.drop (off - content_offset)) ty with
      | .ok (c, _) =>
        match parse_cells content content_offset ty offs with
        | .ok cs => .ok (c :: cs)
        | .err e => .err e
        | .panicked => .panicked
        | .noFuel => .noFuel
      | .err _ => parse_cells content content_offset ty offs
      | .panicked => .panicked
      | .noFuel => .noFuel

/-- BTreePage from src/database/btree.rs lines 190 to 195, flattened: the
page header, the cell pointers of the inner page, and the decoded cells. -/
structure BTreePage where
  header : BTreePageHeader
  cell_pointers : List Nat
  content : List BTreeCell
deriving Repr, DecidableEq

/-- read_page from src/database/btree.rs lines 197 to 239: read the page
header and cell pointer array, take the rest of the window as content
(read_to_end), then resolve every cell pointer against the content with
parse_page_bytes, whose content offset is the header size plus the pointer
array size plus the caller's initial offset. -/
def read_page (bs : List Nat) (initial_offset : Nat) : DRes BTreePage :=
  match read_page_header bs with
  | .ok (header, r1) =>
    match read_cell_pointer_array r1 header.inner.cell_count with
    | .ok (ptrs, r2) =>
      let content_offset := size_of_page_header header + 2 * ptrs.length + initial_offset
      match parse_cells r2 content_offset header.inner.type ptrs with
      | .ok cells => .ok ⟨header, ptrs, cells⟩
      | .err e => .err e
      | .panicked => .panicked
      | .noFuel => .noFuel
    | .err e => .err e
    | .panicked => .panicked
    | .noFuel => .noFuel
  | .err e => .err e
  | .panicked => .panicked
  | .noFuel => .noFuel

end btree

/-- DatabaseHeader from src/database.rs lines 13 to 76, with the byte
array fields as lists and every integer as a Nat. -/
structure DatabaseHeader where
  header_string : List Nat
  page_size : Nat
  file_format_write_version : Nat
  file_format_read_version : Nat
  reserved_page_tail_bytes : Nat
  maximum_embedded_payload_fraction : Nat
  minimum_embedded_payload_fraction : Nat
  leaf_payload_fraction : Nat
  file_change_counter : Nat
  in_header_database_size : Nat
  freelist_page_idx : Nat
  freelist_page_count : Nat
  cookie : Nat
  format_number : Nat
  page_cache_size : Nat
  largest_root_page_idx : Nat
  text_encoding : Nat
  user_version : Nat
  incremental_vacuum_enabled : Nat
  application_id : Nat
  reserved : List Nat
  version_valid_for : Nat
  sqlite_version_number : Nat
deriving Repr, DecidableEq

namespace database

/-- Big-endian u16 at a byte offset. -/
def be16 (bs : List Nat) (off : Nat) : Nat :=
  bs.getD off 0 * 256 + bs.getD (off + 1) 0

/-- Big-endian u32 at a byte offset. -/
def be32 (bs : List Nat) (off : Nat) : Nat :=
  ((bs.getD off 0 * 256 + bs.getD (off + 1) 0) * 256 + bs.getD (off + 2) 0) * 256
    + bs.getD (off + 3) 0

/-- Modelled from the spec, section 4.2: the expected 16-byte magic
literal, the bytes of the string SQLite format 3 followed by a NUL.  The
source only names this string in a doc comment (src/database.rs line 16)
and never defines or checks it. -/
def sqlite_magic : List Nat :=
  [83, 81, 76, 105, 116, 101, 32, 102, 111, 114, 109, 97, 116, 32, 51, 0]

/-- read_header from src/database.rs lines 117 to 122: read exactly 100
bytes, reinterpret them as the repr(C) DatabaseHeader (field offsets 0,
16, 18, 19, 20, 21, 22, 23, then twelve u32 fields from 24, the 20
reserved bytes at 72, and two u32 fields at 92 and 96), converting every
multi-byte field from big-endian.  No validation of any kind is
performed. -/
def read_header (bs : List Nat) : DRes DatabaseHeader :=
  if bs.length < 100 then .err .unexpectedEof
  else
    .ok
      { header_string := bs.take 16
        page_size := be16 bs 16
        file_format_write_version := bs.getD 18 0
        file_format_read_version := bs.getD 19 0
        reserved_page_tail_bytes := bs.getD 20 0
        maximum_embedded_payload_fraction := bs.getD 21 0
        minimum_embedded_payload_fraction := bs.getD 22 0
        leaf_payload_fraction := bs.getD 23 0
        file_change_counter := be32 bs 24
        in_header_database_size := be32 bs 28
        freelist_page_idx := be32 bs 32
        freelist_page_count := be32 bs 36
        cookie := be32 bs 40
        format_number := be32 bs 44
        page_cache_size := be32 bs 48
        largest_root_page_idx := be32 bs 52
        text_encoding := be32 bs 56
        user_version := be32 bs 60
        incremental_vacuum_enabled := be32 bs 64
        application_id := be32 bs 68
        reserved := (bs.drop 72).take 20
        version_valid_for := be32 bs 92
        sqlite_version_number := be32 bs 96 }

end database

theorem be_u16_pairs_length : ∀ l : List Nat, (btree.be_u16_pairs l).length = l.length / 2
  | [] => by simp [btree.be_u16_pairs]
  | [_] => by simp [btree.be_u16_pairs]
  | _ :: _ :: rest => by
    simp only [btree.be_u16_pairs, List.length_cons]
    rw [be_u16_pairs_length rest]
    omega

theorem be_u16_pairs_getElem? : ∀ (l : List Nat) (i : Nat),
    (btree.be_u16_pairs l)[i]? =
      (l[2 * i]?).bind fun a => (l[2 * i + 1]?).bind fun b => some (a * 256 + b)
  | [], i => by simp [btree.be_u16_pairs]
  | [a], i => by cases i <;> simp [btree.be_u16_pairs]
  | a :: b :: rest, 0 => by simp [btree.be_u16_pairs]
  | a :: b :: rest, i + 1 => by
    have ih := be_u16_pairs_getElem? rest i
    have ha : (a :: b :: rest)[2 * (i + 1)]? = rest[2 * i]? := by
      rw [show 2 * (i + 1) = 2 * i + 1 + 1 by ring]
      rw [List.getElem?_cons_succ, List.getElem?_cons_succ]
    have hb : (a :: b :: rest)[2 * (i + 1) + 1]? = rest[2 * i + 1]? := by
      rw [show 2 * (i + 1) + 1 = 2 * i + 1 + 1 + 1 by ring]
      rw [List.getElem?_cons_succ, List.getElem?_cons_succ]
    rw [ha, hb]
    simpa [btree.be_u16_pairs] using ih

/-- C1.  Claimed: varint::read reads at most 9 bytes, stops unconditionally
after the 9th, and fails with a TruncatedInput-style error whenever the
source ends before the varint terminates.  The code does neither: on ten
continuation bytes it consumes all ten and returns a 10-byte varint, and on
a single continuation byte followed by end of input it returns that byte as
a complete varint instead of an error. -/
theorem c1_varint_read_unbounded_and_silent_eof :
    varint.read (List.replicate 10 128) = .ok (⟨128, List.replicate 9 128⟩, []) ∧
    varint.len ⟨128, List.replicate 9 128⟩ = 10 ∧
    varint.read [133] = .ok (⟨133, []⟩, []) := by
  refine ⟨by decide, by decide, by decide⟩

/-- C2.  Claimed: value_of concatenates the low 7 bits of each of the first
up-to-8 bytes and all 8 bits of a 9th byte, making the maximum value the
full unsigned 64-bit range.  The code shifts every byte by 7 bit positions
per index, so in the 9-byte case the 9th byte's high bit overlaps the 8th
byte's low bit: on the all-ones 9-byte varint the claimed rule (stated as
spec_value_of) yields 2 ^ 64 - 1 while value_of yields only 2 ^ 63 - 1. -/
theorem c2_value_of_nine_byte_overlap :
    varint.value_of ⟨255, List.replicate 8 255⟩ = 2 ^ 63 - 1 ∧
    spec_value_of ⟨255, List.replicate 8 255⟩ = 2 ^ 64 - 1 ∧
    varint.value_of ⟨255, List.replicate 8 255⟩ ≠
      spec_value_of ⟨255, List.replicate 8 255⟩ := by
  refine ⟨by decide, by decide, by decide⟩

/-- C3.  Claimed: read_value implements the complete serial-type table
(signed integers of widths 1 to 8 bytes, the 8-byte float, the zero and one
literals, a ReservedSerialType error for 10 and 11, and blobs).  The code
implements only serial types 0, 1 and odd types at least 13; serial types
2 (claimed: 2-byte integer), 7 (claimed: float), 10 (claimed: reserved-type
error) and 12 (claimed: empty blob) all hit the todo macro and panic. -/
theorem c3_read_value_panics_on_most_serial_types :
    record.read_value [1, 2, 3] ⟨2, []⟩ = .panicked ∧
    record.read_value [1, 2, 3] ⟨7, []⟩ = .panicked ∧
    record.read_value [1, 2, 3] ⟨10, []⟩ = .panicked ∧
    record.read_value [1, 2, 3] ⟨12, []⟩ = .panicked := by
  refine ⟨by decide, by decide, by decide, by decide⟩

/-- C4.  Claimed: record::read produces exactly one value per serial type
and fails with a ColumnCountMismatch-style error on leftover or missing
payload bytes.  The code instead loops read_raw_column over the same
serial-type list until a batch comes back empty: on the payload 2,1,42,43
(header of one serial type 1, two data bytes) it silently repeats the
column sequence, returning two batches and no error, and on the payload
2,1 (data exhausted) it silently returns zero batches and no error. -/
theorem c4_record_read_repeats_and_truncates :
    record.read [2, 1, 42, 43] =
      .ok (⟨⟨2, []⟩, [⟨1, []⟩]⟩,
        [[.TwosComplement8 42], [.TwosComplement8 43]]) ∧
    record.read [2, 1] = .ok (⟨⟨2, []⟩, [⟨1, []⟩]⟩, []) := by
  refine ⟨by decide, by decide⟩

/-- C5.  Claimed: a leaf-table cell stores min(total_payload_len,
local_payload_threshold) inline bytes followed, when truncated, by a 4-byte
overflow page number, and the overflow chain is reassembled.  The code
computes no threshold at all: it always reads exactly total_payload_len
inline bytes, always leaves the overflow page number as none (here 4
candidate overflow-pointer bytes remain unread behind the cell), and when
the window holds fewer than total_payload_len bytes it fails instead of
reading a threshold-limited prefix plus an overflow pointer. -/
theorem c5_leaf_cell_ignores_overflow :
    btree.read_leaf_table_cell [3, 1, 10, 20, 30, 0, 0, 0, 5] =
      .ok (⟨⟨3, []⟩, ⟨1, []⟩, [10, 20, 30], none⟩, [0, 0, 0, 5]) ∧
    btree.read_leaf_table_cell (100 :: 1 :: List.replicate 5 7) =
      .err .unexpectedEof := by
  refine ⟨by decide, by decide⟩

/-- C6.  Claimed: traversal walks the table B-tree depth first from the
root, yielding all leaf cells in strictly ascending rowid order.  No such
walker exists: pages are read in file order, and decoding any interior
table page's cells hits the todo macro in read_cell, so read_page panics on
a well-formed interior page (type 5, one cell, right-most child 2, a
correctly placed cell pointer) instead of descending into child pages. -/
theorem c6_no_interior_page_traversal :
    btree.read_page [5, 0, 0, 0, 1, 0, 0, 0, 0, 0, 0, 2, 0, 14, 1, 2, 3] 0 =
      .panicked := by
  decide

/-- C7.  The page reader decodes, in order: a 1-byte type tag, failing with
an UnknownPageType-style error on any tag other than 0x02, 0x05, 0x0A,
0x0D; big-endian 2-byte first-freeblock, cell-count and content-area-start
fields; a 1-byte fragmented-free-bytes count; a 4-byte big-endian
right-most child pointer exactly when the page is interior; and then
exactly cell_count big-endian u16 cell-pointer entries. -/
theorem c7_page_decode_layout (t f1 f2 c1 c2 s1 s2 fb p1 p2 p3 p4 : Nat)
    (rest : List Nat) (n : Nat) (bs : List Nat) :
    (¬(t = 2 ∨ t = 5 ∨ t = 10 ∨ t = 13) →
      btree.read_page_header (t :: f1 :: f2 :: c1 :: c2 :: s1 :: s2 :: fb :: rest) =
        .err (.unknownPageType t)) ∧
    (t = 10 ∨ t = 13 →
      btree.read_page_header (t :: f1 :: f2 :: c1 :: c2 :: s1 :: s2 :: fb :: rest) =
        .ok (⟨⟨if t = 10 then .LeafIndex else .LeafTable,
               f1 * 256 + f2, c1 * 256 + c2, s1 * 256 + s2, fb⟩, none⟩, rest)) ∧
    (t = 2 ∨ t = 5 →
      btree.read_page_header
          (t :: f1 :: f2 :: c1 :: c2 :: s1 :: s2 :: fb :: p1 :: p2 :: p3 :: p4 :: rest) =
        .ok (⟨⟨if t = 2 then .InteriorIndex else .InteriorTable,
               f1 * 256 + f2, c1 * 256 + c2, s1 * 256 + s2, fb⟩,
              some (((p1 * 256 + p2) * 256 + p3) * 256 + p4)⟩, rest)) ∧
    (2 * n ≤ bs.length →
      btree.read_cell_pointer_array bs n =
        .ok (btree.be_u16_pairs (bs.take (2 * n)), bs.drop (2 * n)) ∧
      (btree.be_u16_pairs (bs.take (2 * n))).length = n ∧
      ∀ i a b, i < n → bs[2 * i]? = some a → bs[2 * i + 1]? = some b →
        (btree.be_u16_pairs (bs.take (2 * n)))[i]? = some (a * 256 + b)) := by
  refine ⟨?_, ?_, ?_, ?_⟩
  · intro h
    push_neg at h
    obtain ⟨h2, h5, h10, h13⟩ := h
    simp [btree.read_page_header, btree.read_page_header_inner,
      btree.page_type_try_from, h2, h5, h10, h13]
  · rintro (rfl | rfl) <;>
      simp [btree.read_page_header, btree.read_page_header_inner,
        btree.page_type_try_from]
  · rintro (rfl | rfl) <;>
      simp [btree.read_page_header, btree.read_page_header_inner,
        btree.page_type_try_from]
  · intro h
    refine ⟨by simp [btree.read_cell_pointer_array, Nat.not_lt.mpr h], ?_, ?_⟩
    · rw [be_u16_pairs_length, List.length_take, Nat.min_eq_left h]
      omega
    · intro i a b hi ha hb
      rw [be_u16_pairs_getElem?]
      rw [List.getElem?_take_of_lt (by omega), List.getElem?_take_of_lt (by omega)]
      rw [ha, hb]
      rfl

/-- Witness for C7 at concrete pages: an unrecognized tag 7 is rejected, a
leaf-table page header (tag 13) decodes with no right-most pointer, an
interior-table page header (tag 5) decodes a big-endian right-most pointer,
and a 2-cell pointer array decodes both big-endian u16 entries. -/
theorem c7_page_decode_layout_witness :
    btree.read_page_header [7, 0, 1, 0, 2, 0, 3, 4] = .err (.unknownPageType 7) ∧
    btree.read_page_header [13, 0, 1, 0, 2, 0, 3, 4, 9] =
      .ok (⟨⟨.LeafTable, 1, 2, 3, 4⟩, none⟩, [9]) ∧
    btree.read_page_header [5, 0, 1, 0, 2, 0, 3, 4, 0, 0, 0, 6, 9] =
      .ok (⟨⟨.InteriorTable, 1, 2, 3, 4⟩, some 6⟩, [9]) ∧
    btree.read_cell_pointer_array [1, 0, 0, 2] 2 =
      .ok (btree.be_u16_pairs [1, 0, 0, 2], []) ∧
    (btree.be_u16_pairs [1, 0, 0, 2]).length = 2 ∧
    (btree.be_u16_pairs [1, 0, 0, 2])[0]? = some 256 := by
  have h1 := (c7_page_decode_layout 7 0 1 0 2 0 3 4 0 0 0 0 [] 0 []).1 (by decide)
  have h2 := (c7_page_decode_layout 13 0 1 0 2 0 3 4 0 0 0 0 [9] 0 []).2.1 (Or.inr rfl)
  have h3 := (c7_page_decode_layout 5 0 1 0 2 0 3 4 0 0 0 6 [9] 0 []).2.2.1 (Or.inr rfl)
  have h4 := (c7_page_decode_layout 5 0 1 0 2 0 3 4 0 0 0 6 [] 2 [1, 0, 0, 2]).2.2.2
    (by decide)
  refine ⟨h1, by simpa using h2, by simpa using h3, by simpa using h4.1,
    by simpa using h4.2.1, ?_⟩
  have h5 := h4.2.2 0 1 0 (by decide) (by decide) (by decide)
  simpa using h5

/-- C8.  Claimed: the database header reader rejects a wrong 16-byte magic
string and any page size that is neither a power of two in 512 to 32768
nor the literal 1, with an InvalidHeader-style error.  The code performs no
validation at all: on 100 zero bytes (magic entirely wrong, stored page
size 0) it succeeds, returning the all-zero header. -/
theorem c8_header_reader_accepts_invalid :
    database.read_header (List.replicate 100 0) =
      .ok ⟨List.replicate 16 0, 0, 0, 0, 0, 0, 0, 0, 0, 0, 0, 0, 0, 0, 0, 0, 0, 0,
        0, 0, List.replicate 20 0, 0, 0⟩ ∧
    List.replicate 16 (0 : Nat) ≠ database.sqlite_magic := by
  refine ⟨by decide, by decide⟩

/-- C9.  Claimed: every decode path is bounds-checked and surfaces a typed
error, never a panic, on arbitrary input.  The cell-pointer resolution in
read_page subtracts the computed content offset from each raw pointer with
unchecked usize arithmetic and then slices unchecked: a leaf page whose
single cell pointer is 0 (less than the content offset 10) panics, and one
whose pointer is 256 (past the end of the 0-byte content area) also
panics. -/
theorem c9_cell_pointer_arithmetic_panics :
    btree.read_page [13, 0, 0, 0, 1, 0, 0, 0, 0, 0] 0 = .panicked ∧
    btree.read_page [13, 0, 0, 0, 1, 0, 0, 0, 1, 0] 0 = .panicked := by
  refine ⟨by decide, by decide⟩

/-- C10.  The two encoded-size functions of the varint module agree on
every varint, and both equal one plus the tail length, so record-header
decoding may use either interchangeably. -/
theorem c10_len_size_of_agree (v : Varint) :
    varint.len v = varint.size_of v ∧ varint.len v = 1 + v.tail.length := by
  unfold varint.len varint.size_of
  omega
